import Mathlib

/-!
Verification development for the JobForge distributed job worker.

The repository contains two worker implementations:

* `src/services/worker-py/src/jobforge_worker/lib/worker.py` — the
  asyncio worker that talks to the queue store through the SDK RPC client
  (`claim_jobs` / `heartbeat_job` / `complete_job`), together with
  `lib/registry.py` (the `HandlerRegistry`).
* `src/packages/python-worker/src/jobforge_worker/worker.py` — the
  direct-Postgres worker, together with `database.py`
  (`claim_next_job`, `mark_job_completed`, `mark_job_failed`) and
  `errors.py` (the `JobError` hierarchy and the correlation-id context
  variable).

Both are shallowly embedded below.  I/O nondeterminism (handler outcome
and duration, heartbeat/complete RPC transport failures, fresh UUIDs,
wall-clock readings) is resolved by explicit inputs; the behaviour of an
attempt is modelled as the deterministic list of observable events the
Python code would emit under those inputs.
-/

namespace JobForge

/-- JSON-equivalent values (Python dict / list / scalars), used for job
payloads, handler results and structured error records. -/
inductive JValue where
  | null
  | bool (b : Bool)
  | num (n : Int)
  | str (s : String)
  | arr (elems : List JValue)
  | obj (fields : List (String × JValue))

/-- Python `isinstance(result, dict)`. -/
def JValue.isDict : JValue → Bool
  | .obj _ => true
  | _ => false

/-- Field lookup in a JSON object (first binding wins); `none` on
non-objects and absent keys. -/
def JValue.lookupField : JValue → String → Option JValue
  | .obj fields, key => go fields key
  | _, _ => none
where
  go : List (String × JValue) → String → Option JValue
    | [], _ => none
    | (k, v) :: rest, key => if k = key then some v else go rest key

/-- Association-list lookup, modelling Python `dict.get` (keys are kept
unique by construction, insertion order preserved). -/
def alookup (key : String) : List (String × β) → Option β
  | [] => none
  | (k, v) :: rest => if k = key then some v else alookup key rest

/-- Concatenation of the traces of a list of sub-computations. -/
def concatMap (f : α → List β) : List α → List β
  | [] => []
  | x :: xs => f x ++ concatMap f xs

/-! ## Handler registry (`src/services/worker-py/.../lib/registry.py`)

`HandlerRegistration` stores the handler (an opaque value of type `H`
here: the embedding never calls it, handler behaviour is an explicit
input to the executor model), the optional payload validator, the
timeout and the max-attempts option, exactly the four fields of the
Python class.  Timeouts are in whole seconds (`Nat`); the Python default
`300.0` / `5` is reproduced by `defaultRegistration`. -/

structure HandlerRegistration (H : Type) where
  handler : H
  validate : Option (JValue → Bool)
  timeout_s : Nat
  max_attempts : Nat

/-- Registration with the Python defaults (`timeout_s=300.0`,
`max_attempts=5`, no validator). -/
def defaultRegistration (h : H) : HandlerRegistration H :=
  { handler := h, validate := none, timeout_s := 300, max_attempts := 5 }

/-- `HandlerRegistry`: a `dict[str, HandlerRegistration]` in insertion
order. -/
structure HandlerRegistry (H : Type) where
  handlers : List (String × HandlerRegistration H)

/-- Empty registry (`HandlerRegistry.__init__`). -/
def HandlerRegistry.empty : HandlerRegistry H := ⟨[]⟩

/-- `HandlerRegistry.register`: raises `ValueError` when the type is
already present (returned as the `Option String` error component, with
the registry left unchanged), otherwise stores the registration. -/
def HandlerRegistry.register (r : HandlerRegistry H) (job_type : String)
    (reg : HandlerRegistration H) : HandlerRegistry H × Option String :=
  if (alookup job_type r.handlers).isSome then
    (r, some ("Handler already registered for type: " ++ job_type))
  else
    (⟨r.handlers ++ [(job_type, reg)]⟩, none)

/-- `HandlerRegistry.get`. -/
def HandlerRegistry.get (r : HandlerRegistry H) (job_type : String) :
    Option (HandlerRegistration H) :=
  alookup job_type r.handlers

/-- `HandlerRegistry.has`. -/
def HandlerRegistry.has (r : HandlerRegistry H) (job_type : String) : Bool :=
  (alookup job_type r.handlers).isSome

/-- `Worker.register_handler` of the direct-Postgres worker
(`src/packages/python-worker/.../worker.py`): plain dict assignment
`self.handlers[job_name] = handler` — replaces an existing binding in
place, appends a new one, never raises. -/
def registerHandlerAssign : List (String × H) → String → H → List (String × H)
  | [], job_name, h => [(job_name, h)]
  | (k, v) :: rest, job_name, h =>
    if k = job_name then (job_name, h) :: rest
    else (k, v) :: registerHandlerAssign rest job_name h

/-! ## The RPC worker's job executor
(`src/services/worker-py/.../lib/worker.py`, `Worker._process_job`)

The SDK `JobRow` fields read by `_process_job` are `id`, `type`,
`payload`, `tenant_id` and `attempts` (UUIDs modelled as strings). -/

structure Job where
  id : String
  tenant_id : String
  type : String
  payload : JValue
  attempts : Nat
  max_attempts : Nat

/-- Terminal status accepted by `complete_job` (`JobStatus.SUCCEEDED` /
`JobStatus.FAILED`). -/
inductive TermStatus where
  | succeeded
  | failed
deriving DecidableEq

/-- Observable events of one worker run.  `completeRpc`/`heartbeatRpc`
carry `ok := false` when the underlying RPC raised a transport error
(`JobForgeError` from the SDK client). -/
inductive Event where
  | claimRpc (limit : Nat) (claimedIds : List String) (ok : Bool)
  | heartbeatRpc (job_id : String) (ok : Bool)
  | warnHeartbeatFailed (job_id : String)
  | handlerStart (job_id : String)
  | completeRpc (job_id : String) (status : TermStatus) (result : Option JValue)
      (error : Option JValue) (ok : Bool)
  | logError (msg : String)
  | cancelHeartbeat (job_id : String)
  | sleepPoll

/-- Outcome of the handler thread once it finishes: Python return value
or raised exception (type name and message). -/
inductive HandlerOutcome where
  | returns (result : JValue)
  | raises (ty msg : String)

/-- One handler execution as resolved nondeterminism: how long the
thread ran and what it produced.  `asyncio.wait_for` delivers the
outcome iff the duration stayed within the registration timeout,
and raises `asyncio.TimeoutError` otherwise. -/
structure HandlerRun where
  duration_s : Nat
  outcome : HandlerOutcome

/-- Resolved transport nondeterminism of the two terminal RPCs of one
attempt: whether `complete_job(succeeded)` raises (and the message of
that exception), and whether `complete_job(failed)` raises. -/
structure RpcFate where
  succeedCallFails : Bool
  succeedErrMsg : String
  failCallFails : Bool
deriving DecidableEq

/-- Error record built in `_process_job`'s generic `except` branch:
`{"error": str(e), "type": type(e).__name__, "traceback": ...}`. -/
def errorData (msg ty tb : String) : JValue :=
  .obj [("error", .str msg), ("type", .str ty), ("traceback", .str tb)]

/-- Error record of the `asyncio.TimeoutError` branch:
`{"error": "Handler timeout", "timeout_s": registration.timeout_s}`. -/
def timeoutErrorData (timeout_s : Nat) : JValue :=
  .obj [("error", .str "Handler timeout"), ("timeout_s", .num timeout_s)]

/-- Result payload of `complete_job(succeeded)`:
`result if isinstance(result, dict) else {"value": result}`. -/
def successResultPayload (r : JValue) : JValue :=
  if r.isDict then r else .obj [("value", r)]

/-- `if registration.validate and not registration.validate(job.payload)`
— the attempt survives validation iff no validator is set or the
validator accepts the payload. -/
def regValidates (reg : HandlerRegistration H) (payload : JValue) : Bool :=
  match reg.validate with
  | some v => v payload
  | none => true

/-- One iteration of `_heartbeat_loop`'s body after the sleep: the
heartbeat RPC, plus the warning log when it raised. -/
def heartbeatTick (job_id : String) (ok : Bool) : List Event :=
  if ok then [.heartbeatRpc job_id true]
  else [.heartbeatRpc job_id false, .warnHeartbeatFailed job_id]

/-- Heartbeat ticks issued while the executor awaits the handler; one
tick per elapsed heartbeat interval, each tick's RPC result given by
`fates`.  A failed RPC is caught inside the loop (logged) and the loop
keeps ticking; cancellation is only observed at the sleep between
ticks. -/
def heartbeatEvents (job_id : String) (fates : List Bool) : List Event :=
  concatMap (heartbeatTick job_id) fates

/-- `Worker._complete_job_failed`: issues `complete_job(failed, error)`;
a transport error is swallowed after logging
`"Failed to mark job as failed"`. -/
def completeJobFailedEvents (job_id : String) (err : JValue) (rpcFails : Bool) :
    List Event :=
  if rpcFails then
    [.completeRpc job_id .failed none (some err) false,
     .logError "Failed to mark job as failed"]
  else
    [.completeRpc job_id .failed none (some err) true]

/-- The main `try` body of `_process_job` once a registration was found
and validation passed: handler invocation under `asyncio.wait_for`
(with heartbeat ticks during the wait), then the terminal completion.
When `complete_job(succeeded)` raises, control falls into the generic
`except Exception` branch, which issues `_complete_job_failed` with a
`JobForgeError` record. -/
def mainPathEvents (job : Job) (reg : HandlerRegistration H) (run : HandlerRun)
    (hbFates : List Bool) (fate : RpcFate) (tb : String) : List Event :=
  Event.handlerStart job.id ::
    (heartbeatEvents job.id hbFates ++
      (if reg.timeout_s < run.duration_s then
        completeJobFailedEvents job.id (timeoutErrorData reg.timeout_s) fate.failCallFails
      else
        match run.outcome with
        | .raises ty msg => completeJobFailedEvents job.id (errorData msg ty tb) fate.failCallFails
        | .returns r =>
          if fate.succeedCallFails then
            Event.completeRpc job.id .succeeded (some (successResultPayload r)) none false ::
              completeJobFailedEvents job.id
                (errorData fate.succeedErrMsg "JobForgeError" tb) fate.failCallFails
          else
            [Event.completeRpc job.id .succeeded (some (successResultPayload r)) none true]))

/-- `Worker._process_job`: no registration raises
`ValueError("No handler registered for job type: ...")`, a rejecting
validator raises `ValueError("Payload validation failed")`; both fall
into the generic `except` branch.  The `finally` block cancels the
heartbeat task; since `complete_job` is a synchronous call and no await
separates it from `finally`, the heartbeat task gets no tick between
the terminal RPC and its cancellation. -/
def processJobTrace (job : Job) (reg? : Option (HandlerRegistration H))
    (run : HandlerRun) (hbFates : List Bool) (fate : RpcFate) (tb : String) :
    List Event :=
  (match reg? with
    | none =>
      completeJobFailedEvents job.id
        (errorData ("No handler registered for job type: " ++ job.type) "ValueError" tb)
        fate.failCallFails
    | some reg =>
      if regValidates reg job.payload then
        mainPathEvents job reg run hbFates fate tb
      else
        completeJobFailedEvents job.id
          (errorData "Payload validation failed" "ValueError" tb) fate.failCallFails)
  ++ [Event.cancelHeartbeat job.id]

/-- All resolved nondeterminism of one `_process_job` call. -/
structure AttemptEnv (H : Type) where
  job : Job
  reg? : Option (HandlerRegistration H)
  run : HandlerRun
  hbFates : List Bool
  fate : RpcFate
  tb : String

/-- Event trace of one attempt. -/
def attemptTrace (e : AttemptEnv H) : List Event :=
  processJobTrace e.job e.reg? e.run e.hbFates e.fate e.tb

/-! ### Trace predicates -/

/-- Terminal `complete_job` RPC attempts. -/
def isTerminal : Event → Bool
  | .completeRpc _ _ _ _ _ => true
  | _ => false

def isSucceededCall : Event → Bool
  | .completeRpc _ .succeeded _ _ _ => true
  | _ => false

def isFailedCall : Event → Bool
  | .completeRpc _ .failed _ _ _ => true
  | _ => false

def isHeartbeatAttempt : Event → Bool
  | .heartbeatRpc _ _ => true
  | _ => false

def isHbWarn : Event → Bool
  | .warnHeartbeatFailed _ => true
  | _ => false

def isHandlerStart : Event → Bool
  | .handlerStart _ => true
  | _ => false

def isClaimCall : Event → Bool
  | .claimRpc _ _ _ => true
  | _ => false

/-- The terminal calls of a trace, in order. -/
def terminalCalls (tr : List Event) : List Event :=
  tr.filter isTerminal

/-- Once a `complete_job(failed)` call was issued, no further terminal
call of any kind follows. -/
def nothingTerminalAfterFailedCall : List Event → Bool
  | [] => true
  | e :: rest =>
    if isFailedCall e then !(rest.any isTerminal)
    else nothingTerminalAfterFailedCall rest

/-- No heartbeat RPC is attempted after the first terminal call. -/
def noHeartbeatAfterTerminal : List Event → Bool
  | [] => true
  | e :: rest =>
    if isTerminal e then !(rest.any isHeartbeatAttempt)
    else noHeartbeatAfterTerminal rest

/-- The `error` payload of the first terminal call of a trace. -/
def firstTerminalError (tr : List Event) : Option JValue :=
  match terminalCalls tr with
  | Event.completeRpc _ _ _ e _ :: _ => e
  | _ => none

/-! ### Decomposition of `processJobTrace` used by the proofs -/

/-- Events of an attempt preceding its terminal section: the handler
start and the heartbeat ticks when dispatch reached the handler, and
nothing otherwise. -/
def attemptPrefix (job : Job) (reg? : Option (HandlerRegistration H))
    (hbFates : List Bool) : List Event :=
  match reg? with
  | none => []
  | some reg =>
    if regValidates reg job.payload then
      Event.handlerStart job.id :: heartbeatEvents job.id hbFates
    else []

/-- The terminal section of an attempt: the complete RPC attempts and
the log entries they produce. -/
def attemptTerminalTail (job : Job) (reg? : Option (HandlerRegistration H))
    (run : HandlerRun) (fate : RpcFate) (tb : String) : List Event :=
  match reg? with
  | none =>
    completeJobFailedEvents job.id
      (errorData ("No handler registered for job type: " ++ job.type) "ValueError" tb)
      fate.failCallFails
  | some reg =>
    if regValidates reg job.payload then
      if reg.timeout_s < run.duration_s then
        completeJobFailedEvents job.id (timeoutErrorData reg.timeout_s) fate.failCallFails
      else
        match run.outcome with
        | .raises ty msg =>
          completeJobFailedEvents job.id (errorData msg ty tb) fate.failCallFails
        | .returns r =>
          if fate.succeedCallFails then
            Event.completeRpc job.id .succeeded (some (successResultPayload r)) none false ::
              completeJobFailedEvents job.id
                (errorData fate.succeedErrMsg "JobForgeError" tb) fate.failCallFails
          else
            [Event.completeRpc job.id .succeeded (some (successResultPayload r)) none true]
    else
      completeJobFailedEvents job.id
        (errorData "Payload validation failed" "ValueError" tb) fate.failCallFails

/-! ## The RPC worker's poll loop (`Worker.run_once` / `Worker.run`)

`run_once` claims one batch with `limit = claim_limit` and then runs
`asyncio.gather` over `_process_job` for every claimed job, returning
only after every attempt finished.  The fan-out inside one tick is
concurrent; the serialisation below (attempt traces in claim order) is
one representative interleaving, and only properties that are invariant
under within-tick reordering are proved about it — in particular the
position of events relative to the tick boundaries (`claimRpc`,
`sleepPoll`) is exact, because `gather` is awaited before the tick
ends. -/

/-- Resolved nondeterminism of one tick: either the claim RPC raised, or
it returned the given batch of jobs with their attempt environments. -/
inductive TickInput (H : Type) where
  | claimFailed (msg : String)
  | claimed (envs : List (AttemptEnv H))

/-- `Worker.run_once`: claim, then process all claimed jobs, awaiting
them (`asyncio.gather`) before returning; a claim transport error is
caught and logged. -/
def runOnceTrace (limit : Nat) : TickInput H → List Event
  | .claimFailed _ => [.claimRpc limit [] false, .logError "Error in run_once"]
  | .claimed envs =>
    Event.claimRpc limit (envs.map (fun e => e.job.id)) true ::
      concatMap attemptTrace envs

/-- `Worker.run`: repeat `run_once` followed by the `poll_interval`
sleep until shutdown is requested; `ticks` lists the iterations
performed before the loop condition observed the shutdown flag. -/
def runTrace (limit : Nat) (ticks : List (TickInput H)) : List Event :=
  concatMap (fun t => runOnceTrace limit t ++ [Event.sleepPoll]) ticks

/-- Scan of a worker trace checking that every terminal complete call
refers to a job delivered by the most recent claim — i.e. that no
attempt of an earlier tick is still completing after a later tick began
claiming. -/
def completesCoveredByLastClaim : List Event → List String → Bool
  | [], _ => true
  | Event.claimRpc _ ids _ :: rest, _ => completesCoveredByLastClaim rest ids
  | Event.completeRpc jid _ _ _ _ :: rest, cur =>
    cur.any (fun x => x == jid) && completesCoveredByLastClaim rest cur
  | _ :: rest, cur => completesCoveredByLastClaim rest cur

/-- The job id carried by a terminal complete call, if the event is
one. -/
def eventCompleteId : Event → Option String
  | .completeRpc jid _ _ _ _ => some jid
  | _ => none

/-! ## The direct-Postgres worker
(`src/packages/python-worker/src/jobforge_worker/database.py` and
`worker.py`)

Job rows follow the Prisma schema used by `database.py`
(`JobRow` `TypedDict`); timestamps are integer epoch values.  The jobs
table is a `List PJob`; SQL row order is list order. -/

structure PJob where
  id : String
  name : String
  status : String
  priority : Int
  maxRetries : Nat
  retryCount : Nat
  scheduledAt : Option Int
  startedAt : Option Int
  completedAt : Option Int
  error : Option String
  correlationId : Option String
  createdAt : Int
  updatedAt : Int
deriving DecidableEq

/-- The `WHERE` clause of `claim_next_job`: `status = 'pending'`,
`scheduledAt IS NULL OR scheduledAt <= now`,
`retryCount < maxRetries`. -/
def claimEligible (now : Int) (j : PJob) : Bool :=
  j.status == "pending" &&
    (match j.scheduledAt with
      | none => true
      | some t => decide (t ≤ now)) &&
    decide (j.retryCount < j.maxRetries)

/-- Strict lexicographic comparison of 4-component integer keys. -/
def lexLt4 (a b : Int × Int × Int × Int) : Bool :=
  decide (a.1 < b.1) ||
    (decide (a.1 = b.1) &&
      (decide (a.2.1 < b.2.1) ||
        (decide (a.2.1 = b.2.1) &&
          (decide (a.2.2.1 < b.2.2.1) ||
            (decide (a.2.2.1 = b.2.2.1) && decide (a.2.2.2 < b.2.2.2))))))

/-- Key flag encoding SQL `ASC NULLS FIRST`: null sorts before every
value. -/
def schedFlag : Option Int → Int
  | none => 0
  | some _ => 1

def schedVal : Option Int → Int
  | none => 0
  | some t => t

/-- The `ORDER BY` of `claim_next_job`:
`priority DESC, "scheduledAt" ASC NULLS FIRST, "createdAt" ASC`, as a
strict lexicographic key (priority negated for the descending
direction). -/
def claimKey (j : PJob) : Int × Int × Int × Int :=
  (-j.priority, schedFlag j.scheduledAt, schedVal j.scheduledAt, j.createdAt)

/-- `a` sorts strictly before `b` in the claim query's order. -/
def claimOrderLt (a b : PJob) : Bool :=
  lexLt4 (claimKey a) (claimKey b)

/-- The row selected by the claim query's
`SELECT ... ORDER BY ... LIMIT 1`: the order-minimal eligible row
(ties beyond the `ORDER BY` key go to the earlier row, one valid
resolution of the unordered remainder). -/
def selectJob (now : Int) : List PJob → Option PJob
  | [] => none
  | j :: rest =>
    match selectJob now rest with
    | none => if claimEligible now j then some j else none
    | some b =>
      if claimEligible now j then
        if claimOrderLt b j then some b else some j
      else some b

/-- The `SET` clause of the claim `UPDATE`: `status = 'running'`,
`startedAt = now`, `updatedAt = now` — and nothing else: no worker id
is written and `retryCount` is untouched. -/
def runningUpdate (now : Int) (j : PJob) : PJob :=
  { j with status := "running", startedAt := some now, updatedAt := now }

/-- `JobDatabase.claim_next_job`: atomically update the selected row
and return it (`RETURNING *` yields the post-update row).  The
`worker_id` argument is accepted but never used in the SQL. -/
def claim_next_job (now : Int) (worker_id : String) (store : List PJob) :
    Option PJob × List PJob :=
  match selectJob now store with
  | none => (none, store)
  | some j =>
    (some (runningUpdate now j),
      store.map fun k => if k.id = j.id then runningUpdate now k else k)

/-- SQL `COALESCE(%s, "correlationId")`. -/
def coalesce (newVal old : Option String) : Option String :=
  match newVal with
  | some c => some c
  | none => old

/-- The row update of `mark_job_failed`.  With `retry=True` the status
returns to `'pending'` while retries remain, else `'failed'`, and
`retryCount` is incremented; with `retry=False` the row is marked
`'failed'` permanently without touching `retryCount`. -/
def failedUpdate (now : Int) (error : String) (retry : Bool)
    (cid : Option String) (j : PJob) : PJob :=
  if retry then
    { j with
      status := if j.retryCount + 1 < j.maxRetries then "pending" else "failed",
      retryCount := j.retryCount + 1,
      error := some error,
      completedAt := if j.retryCount + 1 ≥ j.maxRetries then some now else none,
      startedAt := none,
      updatedAt := now,
      correlationId := coalesce cid j.correlationId }
  else
    { j with
      status := "failed",
      error := some error,
      completedAt := some now,
      updatedAt := now,
      correlationId := coalesce cid j.correlationId }

/-- `JobDatabase.mark_job_failed` (`UPDATE ... WHERE id = %s`). -/
def mark_job_failed (now : Int) (job_id : String) (error : String)
    (retry : Bool) (cid : Option String) (store : List PJob) : List PJob :=
  store.map fun j => if j.id = job_id then failedUpdate now error retry cid j else j

/-- The row update of `mark_job_completed`. -/
def completedUpdate (now : Int) (cid : Option String) (j : PJob) : PJob :=
  { j with
    status := "completed",
    completedAt := some now,
    updatedAt := now,
    correlationId := coalesce cid j.correlationId }

/-- `JobDatabase.mark_job_completed`. -/
def mark_job_completed (now : Int) (job_id : String) (cid : Option String)
    (store : List PJob) : List PJob :=
  store.map fun j => if j.id = job_id then completedUpdate now cid j else j

/-- Behaviour of `handler.execute(job, rpc)` in the direct-Postgres
worker, as resolved nondeterminism: normal return, a raised `JobError`
(carrying its `retryable` flag — `JobValidationError` fixes it to
`False`, `JobTimeoutError` and `JobRPCError` to `True`), or an
unexpected exception. -/
inductive PHandlerBehavior where
  | returns
  | raisesJobError (msg : String) (retryable : Bool)
  | raisesUnexpected (ty msg : String)
deriving DecidableEq

/-- `job.get("correlationId") or generate_correlation_id()`: Python `or`
falls through on falsy values, so a missing or empty-string job
correlation id yields the freshly generated UUID. -/
def chosenCorrelationId (job : PJob) (fresh : String) : String :=
  match job.correlationId with
  | some c => if c = "" then fresh else c
  | none => fresh

/-- `str(JobTimeoutError(t))` up to the `(details: ...)` suffix of
`JobError.__str__`, which is elided (it renders a Python dict repr). -/
def jobTimeoutMessage (t : Nat) : String :=
  "Job execution timed out after " ++ toString t ++ "s"

/-- Observable outcome of one `Worker._execute_job` call: the jobs
table afterwards, the correlation slot contents during the handler's
logical call tree and after the `finally` block, whether
`handler.execute` was reached, and the status written to
`job_executions` by `record_execution`. -/
structure PExecResult where
  finalStore : List PJob
  slotDuring : Option String
  slotAfter : Option String
  handlerInvoked : Bool
  executionStatus : String
deriving DecidableEq

/-- `Worker._execute_job`: choose the correlation id and install it in
the context variable; look up the handler (absent raises a
non-retryable `JobError`); pre-check the wall-clock budget
(`time.time() >= start_time + job_timeout_seconds`, with `elapsed` the
time consumed before the check — the check happens once, before
`handler.execute`, and a handler already running is never interrupted);
run the handler; record the outcome; the `finally` block clears the
correlation slot on every path. -/
def executeJobP (cfgTimeout : Nat) (elapsed : Nat) (handlers : List (String × H))
    (behavior : PHandlerBehavior) (fresh : String) (now : Int) (job : PJob)
    (store : List PJob) : PExecResult :=
  let cid := chosenCorrelationId job fresh
  match alookup job.name handlers with
  | none =>
    { finalStore :=
        mark_job_failed now job.id
          ("No handler registered for job type: " ++ job.name) false (some cid) store,
      slotDuring := some cid, slotAfter := none,
      handlerInvoked := false, executionStatus := "failed" }
  | some _ =>
    if cfgTimeout ≤ elapsed then
      { finalStore :=
          mark_job_failed now job.id (jobTimeoutMessage cfgTimeout) true (some cid) store,
        slotDuring := some cid, slotAfter := none,
        handlerInvoked := false, executionStatus := "failed" }
    else
      match behavior with
      | .returns =>
        { finalStore := mark_job_completed now job.id (some cid) store,
          slotDuring := some cid, slotAfter := none,
          handlerInvoked := true, executionStatus := "completed" }
      | .raisesJobError msg r =>
        { finalStore := mark_job_failed now job.id msg r (some cid) store,
          slotDuring := some cid, slotAfter := none,
          handlerInvoked := true, executionStatus := "failed" }
      | .raisesUnexpected ty msg =>
        { finalStore :=
            mark_job_failed now job.id
              ("Unexpected error: " ++ ty ++ ": " ++ msg) true (some cid) store,
          slotDuring := some cid, slotAfter := none,
          handlerInvoked := true, executionStatus := "failed" }

/-! ## Spec-side predicates (stated from the claims' words, for
comparison with the source-derived definitions above) -/

/-- Error-record shape claimed by C3/C4/C5: a structured record tagged
with the given classifier kind and retryable flag. -/
def kindRetryableRecord (kind : String) (retryable : Bool) (e : JValue) : Prop :=
  e.lookupField "kind" = some (.str kind) ∧
    e.lookupField "retryable" = some (.bool retryable)

/-- Claim C1's double-completion property, from the claim's words: at
most one terminal complete call per processed attempt. -/
def atMostOneTerminalPerAttempt (tr : List Event) : Prop :=
  (terminalCalls tr).length ≤ 1

/-- Claim C2's selection order, from the claim's words: `run_at`
ascending first, then priority descending, then `created_at`
ascending. -/
def specOrderLt (a b : PJob) : Bool :=
  lexLt4 (schedFlag a.scheduledAt, schedVal a.scheduledAt, -a.priority, a.createdAt)
    (schedFlag b.scheduledAt, schedVal b.scheduledAt, -b.priority, b.createdAt)

/-- Claim C2, from the claim's words, specialised to one
`claim_next_job` call: any returned job was claimable, is now running
with attempts incremented by one, and was minimal in the claimed
run_at-first order among the claimable jobs. -/
def claimSpecC2 (now : Int) (worker_id : String) (store : List PJob) : Prop :=
  match (claim_next_job now worker_id store).fst with
  | none => True
  | some j' =>
    ∃ j ∈ store, j.id = j'.id ∧ claimEligible now j = true ∧
      j'.status = "running" ∧ j'.retryCount = j.retryCount + 1 ∧
      ∀ k ∈ store, claimEligible now k = true → specOrderLt k j = false

/-- Claim C6's dispatch property, from the claim's words, at the
granularity of one tick: claimed jobs are dispatched to executor tasks
without being awaited, so the tick's own trace finishes without any
terminal complete call of the dispatched jobs. -/
def dispatchWithoutAwait (limit : Nat) (t : TickInput H) : Prop :=
  (runOnceTrace limit t).any isTerminal = false

/-! ## Concrete instances used by counterexamples and witnesses -/

def cJob : Job :=
  { id := "job-1", tenant_id := "tenant-1", type := "send_email",
    payload := .obj [("x", .num 1)], attempts := 1, max_attempts := 3 }

def cRegPlain : HandlerRegistration String :=
  { handler := "send_email_handler", validate := none, timeout_s := 5, max_attempts := 3 }

def cRegRejecting : HandlerRegistration String :=
  { handler := "send_email_handler", validate := some (fun _ => false),
    timeout_s := 5, max_attempts := 3 }

def cRunOk : HandlerRun :=
  { duration_s := 1, outcome := .returns (.num 7) }

def cRunSlow : HandlerRun :=
  { duration_s := 60, outcome := .returns .null }

def cFateOk : RpcFate :=
  { succeedCallFails := false, succeedErrMsg := "", failCallFails := false }

def cFateSucceedFails : RpcFate :=
  { succeedCallFails := true, succeedErrMsg := "RPC call failed: 500", failCallFails := false }

/-- Attempt where the handler succeeds but `complete_job(succeeded)`
raises a transport error. -/
def envSucceedRpcFails : AttemptEnv String :=
  { job := cJob, reg? := some cRegPlain, run := cRunOk, hbFates := [],
    fate := cFateSucceedFails, tb := "tb" }

/-- Attempt taking the happy path with two heartbeat ticks. -/
def envHappy : AttemptEnv String :=
  { job := cJob, reg? := some cRegPlain, run := cRunOk, hbFates := [true, true],
    fate := cFateOk, tb := "tb" }

/-- Attempt whose handler overruns the 5 s registration timeout. -/
def envTimeout : AttemptEnv String :=
  { job := cJob, reg? := some cRegPlain, run := cRunSlow, hbFates := [true],
    fate := cFateOk, tb := "tb" }

/-- Attempt for a job type with no registration. -/
def envNoHandler : AttemptEnv String :=
  { job := cJob, reg? := none, run := cRunOk, hbFates := [], fate := cFateOk, tb := "tb" }

/-- Attempt whose payload is rejected by the registered validator. -/
def envRejected : AttemptEnv String :=
  { job := cJob, reg? := some cRegRejecting, run := cRunOk, hbFates := [],
    fate := cFateOk, tb := "tb" }

/-- Attempt with a failing heartbeat between two successful ones. -/
def envHbFlaky : AttemptEnv String :=
  { job := cJob, reg? := some cRegPlain, run := cRunOk, hbFates := [true, false, true],
    fate := cFateOk, tb := "tb" }

/-- Pending job with the earlier `scheduledAt` but lower priority. -/
def pjobA : PJob :=
  { id := "a", name := "echo", status := "pending", priority := 0, maxRetries := 3,
    retryCount := 0, scheduledAt := some 1, startedAt := none, completedAt := none,
    error := none, correlationId := none, createdAt := 0, updatedAt := 0 }

/-- Pending job with the later `scheduledAt` but higher priority. -/
def pjobB : PJob :=
  { id := "b", name := "echo", status := "pending", priority := 5, maxRetries := 3,
    retryCount := 0, scheduledAt := some 2, startedAt := none, completedAt := none,
    error := none, correlationId := none, createdAt := 1, updatedAt := 0 }

def storeC2 : List PJob := [pjobA, pjobB]

/-- Job carrying a present-but-empty correlation id. -/
def pjobEmptyCid : PJob :=
  { id := "c", name := "echo", status := "running", priority := 0, maxRetries := 5,
    retryCount := 0, scheduledAt := none, startedAt := some 10, completedAt := none,
    error := none, correlationId := some "", createdAt := 0, updatedAt := 10 }

/-! ## Structural lemmas about the attempt trace -/

theorem processJobTrace_decomp (job : Job) (reg? : Option (HandlerRegistration H))
    (run : HandlerRun) (hbFates : List Bool) (fate : RpcFate) (tb : String) :
    processJobTrace job reg? run hbFates fate tb =
      attemptPrefix job reg? hbFates ++
        (attemptTerminalTail job reg? run fate tb ++ [Event.cancelHeartbeat job.id]) := by
  cases reg? with
  | none => simp [processJobTrace, attemptPrefix, attemptTerminalTail]
  | some reg =>
    by_cases hv : regValidates reg job.payload
    · simp [processJobTrace, attemptPrefix, attemptTerminalTail, mainPathEvents, hv,
        List.append_assoc]
    · simp [processJobTrace, attemptPrefix, attemptTerminalTail, hv]

theorem mem_heartbeatEvents {e : Event} {jid : String} {fates : List Bool}
    (h : e ∈ heartbeatEvents jid fates) :
    e = .heartbeatRpc jid true ∨ e = .heartbeatRpc jid false ∨
      e = .warnHeartbeatFailed jid := by
  induction fates with
  | nil => simp [heartbeatEvents, concatMap] at h
  | cons b rest ih =>
    simp only [heartbeatEvents, concatMap, List.mem_append] at h
    rcases h with h | h
    · cases b <;> simp [heartbeatTick] at h <;> tauto
    · exact ih h

theorem heartbeatEvents_cons (jid : String) (b : Bool) (rest : List Bool) :
    heartbeatEvents jid (b :: rest) = heartbeatTick jid b ++ heartbeatEvents jid rest :=
  rfl

theorem heartbeatEvents_hb_count (jid : String) (fates : List Bool) :
    ((heartbeatEvents jid fates).filter isHeartbeatAttempt).length = fates.length := by
  induction fates with
  | nil => rfl
  | cons b rest ih =>
    rw [heartbeatEvents_cons, List.filter_append]
    cases b <;> simp [heartbeatTick, isHeartbeatAttempt, isHbWarn, ih]

theorem heartbeatEvents_warn_count (jid : String) (fates : List Bool) :
    ((heartbeatEvents jid fates).filter isHbWarn).length =
      (fates.filter (fun b => !b)).length := by
  induction fates with
  | nil => rfl
  | cons b rest ih =>
    rw [heartbeatEvents_cons, List.filter_append]
    cases b <;> simp [heartbeatTick, isHbWarn, ih]

theorem isTerminal_of_isFailedCall {e : Event} (h : isFailedCall e = true) :
    isTerminal e = true := by
  cases e <;> simp [isFailedCall, isTerminal] at *

theorem mem_attemptPrefix {e : Event} {job : Job} {reg? : Option (HandlerRegistration H)}
    {hbFates : List Bool} (h : e ∈ attemptPrefix job reg? hbFates) :
    isClaimCall e = false ∧ isTerminal e = false ∧ eventCompleteId e = none := by
  cases reg? with
  | none => simp [attemptPrefix] at h
  | some reg =>
    by_cases hv : regValidates reg job.payload
    · simp only [attemptPrefix, hv, if_true, List.mem_cons] at h
      rcases h with rfl | h
      · simp [isClaimCall, isTerminal, eventCompleteId]
      · rcases mem_heartbeatEvents h with rfl | rfl | rfl <;>
          simp [isClaimCall, isTerminal, eventCompleteId]
    · simp [attemptPrefix, hv] at h

theorem mem_completeJobFailedEvents {e : Event} {jid : String} {err : JValue} {b : Bool}
    (h : e ∈ completeJobFailedEvents jid err b) :
    e = .completeRpc jid .failed none (some err) (!b) ∨
      e = .logError "Failed to mark job as failed" := by
  cases b <;> simp [completeJobFailedEvents] at h <;> tauto

theorem mem_attemptTerminalTail {e : Event} {job : Job}
    {reg? : Option (HandlerRegistration H)} {run : HandlerRun} {fate : RpcFate}
    {tb : String} (h : e ∈ attemptTerminalTail job reg? run fate tb) :
    isClaimCall e = false ∧ isHeartbeatAttempt e = false ∧ isHbWarn e = false ∧
      ∀ jid, eventCompleteId e = some jid → jid = job.id := by
  have hfail : ∀ (err : JValue), e ∈ completeJobFailedEvents job.id err fate.failCallFails →
      isClaimCall e = false ∧ isHeartbeatAttempt e = false ∧ isHbWarn e = false ∧
        ∀ jid, eventCompleteId e = some jid → jid = job.id := by
    intro err hmem
    rcases mem_completeJobFailedEvents hmem with rfl | rfl <;>
      simp [isClaimCall, isHeartbeatAttempt, isHbWarn, eventCompleteId]
  cases reg? with
  | none => exact hfail _ h
  | some reg =>
    by_cases hv : regValidates reg job.payload
    · simp only [attemptTerminalTail, hv, if_true] at h
      by_cases hto : reg.timeout_s < run.duration_s
      · rw [if_pos hto] at h
        exact hfail _ h
      · rw [if_neg hto] at h
        cases hout : run.outcome with
        | raises ty msg =>
          rw [hout] at h
          exact hfail _ h
        | returns r =>
          rw [hout] at h
          by_cases hs : fate.succeedCallFails = true
          · have h' : e ∈
                Event.completeRpc job.id .succeeded (some (successResultPayload r)) none false ::
                  completeJobFailedEvents job.id
                    (errorData fate.succeedErrMsg "JobForgeError" tb) fate.failCallFails := by
              simpa [hs] using h
            rcases List.mem_cons.mp h' with rfl | h''
            · simp [isClaimCall, isHeartbeatAttempt, isHbWarn, eventCompleteId]
            · exact hfail _ h''
          · have h' : e ∈
                [Event.completeRpc job.id .succeeded (some (successResultPayload r)) none true] := by
              simpa [hs] using h
            simp only [List.mem_singleton] at h'
            subst h'
            simp [isClaimCall, isHeartbeatAttempt, isHbWarn, eventCompleteId]
    · simp only [attemptTerminalTail, hv, if_false] at h
      exact hfail _ h

/-- Shape of the terminal section: one failed call, one successful
succeeded call, or a succeeded call that raised followed by a failed
call. -/
theorem terminalCalls_attemptTerminalTail (job : Job)
    (reg? : Option (HandlerRegistration H)) (run : HandlerRun) (fate : RpcFate)
    (tb : String) :
    (∃ err, terminalCalls (attemptTerminalTail job reg? run fate tb) =
        [Event.completeRpc job.id .failed none (some err) (!fate.failCallFails)]) ∨
    (∃ r, fate.succeedCallFails = false ∧
        terminalCalls (attemptTerminalTail job reg? run fate tb) =
          [Event.completeRpc job.id .succeeded (some (successResultPayload r)) none true]) ∨
    (∃ r err, fate.succeedCallFails = true ∧
        terminalCalls (attemptTerminalTail job reg? run fate tb) =
          [Event.completeRpc job.id .succeeded (some (successResultPayload r)) none false,
           Event.completeRpc job.id .failed none (some err) (!fate.failCallFails)]) := by
  have hfailTC : ∀ (err : JValue),
      terminalCalls (completeJobFailedEvents job.id err fate.failCallFails) =
        [Event.completeRpc job.id .failed none (some err) (!fate.failCallFails)] := by
    intro err
    cases hb : fate.failCallFails <;>
      simp [completeJobFailedEvents, terminalCalls, isTerminal, hb]
  cases reg? with
  | none => exact Or.inl ⟨_, hfailTC _⟩
  | some reg =>
    by_cases hv : regValidates reg job.payload
    · simp only [attemptTerminalTail, hv, if_true]
      by_cases hto : reg.timeout_s < run.duration_s
      · rw [if_pos hto]
        exact Or.inl ⟨_, hfailTC _⟩
      · rw [if_neg hto]
        cases hout : run.outcome with
        | raises ty msg => exact Or.inl ⟨_, hfailTC _⟩
        | returns r =>
          by_cases hs : fate.succeedCallFails = true
          · refine Or.inr (Or.inr
              ⟨r, errorData fate.succeedErrMsg "JobForgeError" tb, hs, ?_⟩)
            cases hbf : fate.failCallFails <;>
              simp [hs, hbf, terminalCalls, isTerminal, completeJobFailedEvents]
          · refine Or.inr (Or.inl ⟨r, by simpa using hs, ?_⟩)
            simp [hs, terminalCalls, isTerminal]
    · simp only [attemptTerminalTail, hv, if_false]
      exact Or.inl ⟨_, hfailTC _⟩

theorem terminalCalls_append (l1 l2 : List Event) :
    terminalCalls (l1 ++ l2) = terminalCalls l1 ++ terminalCalls l2 := by
  simp [terminalCalls, List.filter_append]

theorem terminalCalls_attemptPrefix (job : Job) (reg? : Option (HandlerRegistration H))
    (hbFates : List Bool) : terminalCalls (attemptPrefix job reg? hbFates) = [] := by
  rw [terminalCalls, List.filter_eq_nil_iff]
  intro e he
  simp [(mem_attemptPrefix he).2.1]

theorem terminalCalls_processJobTrace (job : Job) (reg? : Option (HandlerRegistration H))
    (run : HandlerRun) (hbFates : List Bool) (fate : RpcFate) (tb : String) :
    terminalCalls (processJobTrace job reg? run hbFates fate tb) =
      terminalCalls (attemptTerminalTail job reg? run fate tb) := by
  rw [processJobTrace_decomp, terminalCalls_append, terminalCalls_append,
    terminalCalls_attemptPrefix]
  simp [terminalCalls, isTerminal]

theorem nothingTerminalAfterFailedCall_append (l1 l2 : List Event)
    (h : ∀ e ∈ l1, isFailedCall e = false) :
    nothingTerminalAfterFailedCall (l1 ++ l2) = nothingTerminalAfterFailedCall l2 := by
  induction l1 with
  | nil => rfl
  | cons e rest ih =>
    have he := h e (by simp)
    rw [List.cons_append, nothingTerminalAfterFailedCall, he]
    simp only [Bool.false_eq_true, if_false]
    exact ih (fun x hx => h x (by simp [hx]))

theorem noHeartbeatAfterTerminal_append (l1 l2 : List Event)
    (h : ∀ e ∈ l1, isTerminal e = false) :
    noHeartbeatAfterTerminal (l1 ++ l2) = noHeartbeatAfterTerminal l2 := by
  induction l1 with
  | nil => rfl
  | cons e rest ih =>
    have he := h e (by simp)
    rw [List.cons_append, noHeartbeatAfterTerminal, he]
    simp only [Bool.false_eq_true, if_false]
    exact ih (fun x hx => h x (by simp [hx]))

theorem nothingTerminalAfterFailedCall_tail (job : Job)
    (reg? : Option (HandlerRegistration H)) (run : HandlerRun) (fate : RpcFate)
    (tb : String) :
    nothingTerminalAfterFailedCall
      (attemptTerminalTail job reg? run fate tb ++ [Event.cancelHeartbeat job.id]) = true := by
  have hfailed : ∀ (err : JValue), nothingTerminalAfterFailedCall
      (completeJobFailedEvents job.id err fate.failCallFails ++
        [Event.cancelHeartbeat job.id]) = true := by
    intro err
    cases hb : fate.failCallFails <;>
      simp [completeJobFailedEvents, nothingTerminalAfterFailedCall, isFailedCall, isTerminal]
  cases reg? with
  | none => exact hfailed _
  | some reg =>
    by_cases hv : regValidates reg job.payload
    · simp only [attemptTerminalTail, hv, if_true]
      by_cases hto : reg.timeout_s < run.duration_s
      · rw [if_pos hto]
        exact hfailed _
      · rw [if_neg hto]
        cases run.outcome with
        | raises ty msg => exact hfailed _
        | returns r =>
          by_cases hs : fate.succeedCallFails = true
          · cases hbf : fate.failCallFails <;>
              simp [hs, hbf, completeJobFailedEvents, nothingTerminalAfterFailedCall,
                isFailedCall, isTerminal]
          · simp [hs, nothingTerminalAfterFailedCall, isFailedCall, isTerminal]
    · simp only [attemptTerminalTail, hv, if_false]
      exact hfailed _

theorem noHeartbeatAfterTerminal_tail (job : Job)
    (reg? : Option (HandlerRegistration H)) (run : HandlerRun) (fate : RpcFate)
    (tb : String) :
    noHeartbeatAfterTerminal
      (attemptTerminalTail job reg? run fate tb ++ [Event.cancelHeartbeat job.id]) = true := by
  have hfailed : ∀ (err : JValue), noHeartbeatAfterTerminal
      (completeJobFailedEvents job.id err fate.failCallFails ++
        [Event.cancelHeartbeat job.id]) = true := by
    intro err
    cases hb : fate.failCallFails <;>
      simp [completeJobFailedEvents, noHeartbeatAfterTerminal, isTerminal, isHeartbeatAttempt]
  cases reg? with
  | none => exact hfailed _
  | some reg =>
    by_cases hv : regValidates reg job.payload
    · simp only [attemptTerminalTail, hv, if_true]
      by_cases hto : reg.timeout_s < run.duration_s
      · rw [if_pos hto]
        exact hfailed _
      · rw [if_neg hto]
        cases run.outcome with
        | raises ty msg => exact hfailed _
        | returns r =>
          by_cases hs : fate.succeedCallFails = true
          · cases hbf : fate.failCallFails <;>
              simp [hs, hbf, completeJobFailedEvents, noHeartbeatAfterTerminal,
                isTerminal, isHeartbeatAttempt]
          · simp [hs, noHeartbeatAfterTerminal, isTerminal, isHeartbeatAttempt]
    · simp only [attemptTerminalTail, hv, if_false]
      exact hfailed _

/-- Record fields of a generic `except`-branch error record. -/
theorem errorData_lookup (msg ty tb key : String) :
    (errorData msg ty tb).lookupField key =
      if "error" = key then some (.str msg)
      else if "type" = key then some (.str ty)
      else if "traceback" = key then some (.str tb)
      else none := rfl

/-- Record fields of the timeout error record. -/
theorem timeoutErrorData_lookup (t : Nat) (key : String) :
    (timeoutErrorData t).lookupField key =
      if "error" = key then some (.str "Handler timeout")
      else if "timeout_s" = key then some (.num t)
      else none := rfl

/-! ## Claim C1 -/

/-- C1 (amended): per processed attempt the executor issues at most two
terminal complete calls — at most one of them a `failed` call — and
exactly one when `complete_job(succeeded)` does not raise; the second
terminal call arises exactly when a `succeeded` call raised a transport
error, in which case the generic exception handler issues a `failed`
call.  Once a `failed` call was issued (whether or not it raised), no
further terminal call of any kind follows: a transport error of the
`failed` call is only logged. -/
theorem processJob_issues_at_most_two_terminal_calls (job : Job)
    (reg? : Option (HandlerRegistration H)) (run : HandlerRun) (hbFates : List Bool)
    (fate : RpcFate) (tb : String) :
    (terminalCalls (processJobTrace job reg? run hbFates fate tb)).length ≤ 2 ∧
    ((terminalCalls (processJobTrace job reg? run hbFates fate tb)).filter
        isFailedCall).length ≤ 1 ∧
    (fate.succeedCallFails = false →
      (terminalCalls (processJobTrace job reg? run hbFates fate tb)).length = 1) ∧
    nothingTerminalAfterFailedCall (processJobTrace job reg? run hbFates fate tb) = true := by
  have hTC := terminalCalls_processJobTrace job reg? run hbFates fate tb
  have hshape := terminalCalls_attemptTerminalTail job reg? run fate tb
  refine ⟨?_, ?_, ?_, ?_⟩
  · rcases hshape with ⟨err, he⟩ | ⟨r, _, he⟩ | ⟨r, err, _, he⟩ <;> rw [hTC, he] <;> simp
  · rcases hshape with ⟨err, he⟩ | ⟨r, _, he⟩ | ⟨r, err, _, he⟩ <;> rw [hTC, he] <;>
      simp [isFailedCall]
  · intro hok
    rcases hshape with ⟨err, he⟩ | ⟨r, _, he⟩ | ⟨r, err, hs, he⟩
    · rw [hTC, he]; rfl
    · rw [hTC, he]; rfl
    · rw [hok] at hs; exact Bool.noConfusion hs
  · rw [processJobTrace_decomp, nothingTerminalAfterFailedCall_append]
    · exact nothingTerminalAfterFailedCall_tail job reg? run fate tb
    · intro e he
      cases hf : isFailedCall e with
      | false => rfl
      | true =>
        have := (mem_attemptPrefix he).2.1
        rw [isTerminal_of_isFailedCall hf] at this
        exact Bool.noConfusion this

/-- Witness for C1 at a concrete happy-path attempt. -/
theorem processJob_issues_at_most_two_terminal_calls_witness :
    (terminalCalls (processJobTrace cJob (some cRegPlain) cRunOk [true, true] cFateOk "tb")).length ≤ 2 ∧
    ((terminalCalls (processJobTrace cJob (some cRegPlain) cRunOk [true, true] cFateOk "tb")).filter
        isFailedCall).length ≤ 1 ∧
    (cFateOk.succeedCallFails = false →
      (terminalCalls (processJobTrace cJob (some cRegPlain) cRunOk [true, true] cFateOk "tb")).length = 1) ∧
    nothingTerminalAfterFailedCall
      (processJobTrace cJob (some cRegPlain) cRunOk [true, true] cFateOk "tb") = true :=
  processJob_issues_at_most_two_terminal_calls cJob (some cRegPlain) cRunOk [true, true] cFateOk "tb"

/-- C1 counterexample: when the handler succeeds but
`complete_job(succeeded)` raises a transport error, `_process_job`
falls into the generic exception handler and issues a second terminal
call (`complete_job(failed)`), so the attempt sees two terminal calls —
the claimed at-most-one bound is false, and the executor does not merely
log and exit after the failed terminal call. -/
theorem processJob_second_terminal_call_after_succeed_rpc_failure :
    ¬ atMostOneTerminalPerAttempt (attemptTrace envSucceedRpcFails) := by
  unfold atMostOneTerminalPerAttempt
  decide

/-! ## Claim C10 -/

/-- C10: when the handler returns within the budget, the first terminal
call is `complete_job(succeeded)` and its result payload equals the
handler's return value when that value is a dict and the wrapper
`{"value": result}` otherwise; exactly one succeeded call is issued, so
the return value is neither dropped nor otherwise transformed. -/
theorem handler_result_passed_through_to_complete (job : Job)
    (reg : HandlerRegistration H) (run : HandlerRun) (hbFates : List Bool)
    (fate : RpcFate) (tb : String) (r : JValue)
    (hval : regValidates reg job.payload = true)
    (hdur : ¬ reg.timeout_s < run.duration_s)
    (hout : run.outcome = .returns r) :
    (terminalCalls (processJobTrace job (some reg) run hbFates fate tb)).head? =
      some (Event.completeRpc job.id .succeeded
        (some (if r.isDict then r else .obj [("value", r)])) none (!fate.succeedCallFails)) ∧
    ((terminalCalls (processJobTrace job (some reg) run hbFates fate tb)).filter
        isSucceededCall).length = 1 := by
  rw [terminalCalls_processJobTrace]
  by_cases hs : fate.succeedCallFails = true
  · cases hbf : fate.failCallFails <;>
      simp [attemptTerminalTail, hval, hdur, hout, hs, hbf, completeJobFailedEvents,
        terminalCalls, isTerminal, isSucceededCall, successResultPayload]
  · simp [attemptTerminalTail, hval, hdur, hout, hs, terminalCalls, isTerminal,
      isSucceededCall, successResultPayload]

/-- Witness for C10: a handler returning the non-dict value `7` is
delivered wrapped as `{"value": 7}`. -/
theorem handler_result_passed_through_to_complete_witness :
    (terminalCalls (processJobTrace cJob (some cRegPlain) cRunOk [] cFateOk "tb")).head? =
      some (Event.completeRpc cJob.id .succeeded
        (some (if (JValue.num 7).isDict then JValue.num 7 else .obj [("value", .num 7)]))
        none (!cFateOk.succeedCallFails)) ∧
    ((terminalCalls (processJobTrace cJob (some cRegPlain) cRunOk [] cFateOk "tb")).filter
        isSucceededCall).length = 1 :=
  handler_result_passed_through_to_complete cJob cRegPlain cRunOk [] cFateOk "tb"
    (.num 7) rfl (by decide) rfl

/-! ## Claim C4 -/

/-- C4 (amended): when the handler overruns the registration timeout,
`asyncio.wait_for` stops the wait at the wall-clock budget and the
executor issues exactly one terminal call, `complete_job(failed)`, whose
error record is `{"error": "Handler timeout", "timeout_s": t}`; the
record carries no `kind` tag and no `retryable` flag (the store decides
requeue versus dead on its own). -/
theorem timeout_single_failed_terminal_with_timeout_record (job : Job)
    (reg : HandlerRegistration H) (run : HandlerRun) (hbFates : List Bool)
    (fate : RpcFate) (tb : String)
    (hval : regValidates reg job.payload = true)
    (hto : reg.timeout_s < run.duration_s) :
    terminalCalls (processJobTrace job (some reg) run hbFates fate tb) =
      [Event.completeRpc job.id .failed none (some (timeoutErrorData reg.timeout_s))
        (!fate.failCallFails)] ∧
    (timeoutErrorData reg.timeout_s).lookupField "error" = some (.str "Handler timeout") ∧
    (timeoutErrorData reg.timeout_s).lookupField "timeout_s" = some (.num reg.timeout_s) ∧
    (timeoutErrorData reg.timeout_s).lookupField "kind" = none ∧
    (timeoutErrorData reg.timeout_s).lookupField "retryable" = none := by
  refine ⟨?_, ?_, ?_, ?_, ?_⟩
  · rw [terminalCalls_processJobTrace]
    cases hbf : fate.failCallFails <;>
      simp [attemptTerminalTail, hval, hto, hbf, completeJobFailedEvents,
        terminalCalls, isTerminal]
  · rw [timeoutErrorData_lookup, if_pos rfl]
  · rw [timeoutErrorData_lookup, if_neg (by decide), if_pos rfl]
  · rw [timeoutErrorData_lookup, if_neg (by decide), if_neg (by decide)]
  · rw [timeoutErrorData_lookup, if_neg (by decide), if_neg (by decide)]

/-- Witness for C4 at a 5 s registration budget and a 60 s handler. -/
theorem timeout_single_failed_terminal_with_timeout_record_witness :
    terminalCalls (processJobTrace cJob (some cRegPlain) cRunSlow [true] cFateOk "tb") =
      [Event.completeRpc cJob.id .failed none (some (timeoutErrorData cRegPlain.timeout_s))
        (!cFateOk.failCallFails)] ∧
    (timeoutErrorData cRegPlain.timeout_s).lookupField "error" =
      some (.str "Handler timeout") ∧
    (timeoutErrorData cRegPlain.timeout_s).lookupField "timeout_s" =
      some (.num cRegPlain.timeout_s) ∧
    (timeoutErrorData cRegPlain.timeout_s).lookupField "kind" = none ∧
    (timeoutErrorData cRegPlain.timeout_s).lookupField "retryable" = none :=
  timeout_single_failed_terminal_with_timeout_record cJob cRegPlain cRunSlow [true]
    cFateOk "tb" rfl (by decide)

/-- C4 counterexample: the error record actually issued on timeout is
`{"error": "Handler timeout", "timeout_s": 5}` — it is not a record of
kind `Timeout` marked `retryable = true`; no such fields exist. -/
theorem timeout_record_lacks_kind_and_retryable :
    firstTerminalError (attemptTrace envTimeout) = some (timeoutErrorData 5) ∧
    ¬ kindRetryableRecord "Timeout" true (timeoutErrorData 5) := by
  refine ⟨rfl, ?_⟩
  intro h
  rcases h with ⟨hk, _⟩
  rw [timeoutErrorData_lookup, if_neg (by decide), if_neg (by decide)] at hk
  exact Option.noConfusion hk

/-! ## Claim C5 -/

/-- C5 (amended): a claimed job whose type has no registration never
reaches a handler.  In the RPC worker the attempt raises
`ValueError("No handler registered for job type: ...")`, producing one
terminal `complete_job(failed)` call with the generic record
`{"error": ..., "type": "ValueError", "traceback": ...}` (no `kind` or
`retryable` field).  In the direct-Postgres worker the missing handler
raises `JobError(..., retryable=False)` before `handler.execute`, so the
job is marked `'failed'` permanently and is no longer claimable. -/
theorem no_handler_no_invocation_terminal_failure {H H2 : Type} (job : Job)
    (run : HandlerRun) (hbFates : List Bool) (fate : RpcFate) (tb : String)
    (cfgTimeout elapsed : Nat) (handlers : List (String × H2))
    (behavior : PHandlerBehavior) (fresh : String) (now : Int) (pjob : PJob)
    (store : List PJob) (now2 now3 : Int) (msg : String) (cid : Option String)
    (j : PJob) (habs : alookup pjob.name handlers = none) :
    ((processJobTrace job (none : Option (HandlerRegistration H)) run hbFates fate tb).any
        isHandlerStart = false) ∧
    terminalCalls (processJobTrace job (none : Option (HandlerRegistration H)) run hbFates fate tb) =
      [Event.completeRpc job.id .failed none
        (some (errorData ("No handler registered for job type: " ++ job.type) "ValueError" tb))
        (!fate.failCallFails)] ∧
    (executeJobP cfgTimeout elapsed handlers behavior fresh now pjob store).handlerInvoked =
      false ∧
    (executeJobP cfgTimeout elapsed handlers behavior fresh now pjob store).finalStore =
      mark_job_failed now pjob.id ("No handler registered for job type: " ++ pjob.name)
        false (some (chosenCorrelationId pjob fresh)) store ∧
    (failedUpdate now2 msg false cid j).status = "failed" ∧
    claimEligible now3 (failedUpdate now2 msg false cid j) = false := by
  refine ⟨?_, ?_, ?_, ?_, ?_, ?_⟩
  · cases hbf : fate.failCallFails <;>
      simp [processJobTrace, completeJobFailedEvents, hbf, isHandlerStart]
  · rw [terminalCalls_processJobTrace]
    cases hbf : fate.failCallFails <;>
      simp [attemptTerminalTail, completeJobFailedEvents, hbf, terminalCalls, isTerminal]
  · simp [executeJobP, habs]
  · simp [executeJobP, habs]
  · simp [failedUpdate]
  · simp [claimEligible, failedUpdate,
      show (("failed" : String) == "pending") = false from by decide]

/-- Witness for C5 at concrete attempts in both workers. -/
theorem no_handler_no_invocation_terminal_failure_witness :
    ((processJobTrace cJob (none : Option (HandlerRegistration String)) cRunOk [] cFateOk "tb").any
        isHandlerStart = false) ∧
    terminalCalls (processJobTrace cJob (none : Option (HandlerRegistration String)) cRunOk [] cFateOk "tb") =
      [Event.completeRpc cJob.id .failed none
        (some (errorData ("No handler registered for job type: " ++ cJob.type) "ValueError" "tb"))
        (!cFateOk.failCallFails)] ∧
    (executeJobP 300 0 ([] : List (String × String)) .returns "fresh" 10 pjobA []).handlerInvoked =
      false ∧
    (executeJobP 300 0 ([] : List (String × String)) .returns "fresh" 10 pjobA []).finalStore =
      mark_job_failed 10 pjobA.id ("No handler registered for job type: " ++ pjobA.name)
        false (some (chosenCorrelationId pjobA "fresh")) [] ∧
    (failedUpdate 20 "m" false none pjobB).status = "failed" ∧
    claimEligible 30 (failedUpdate 20 "m" false none pjobB) = false :=
  no_handler_no_invocation_terminal_failure cJob cRunOk [] cFateOk "tb" 300 0 []
    .returns "fresh" 10 pjobA [] 20 30 "m" none pjobB rfl

/-- C5 counterexample: the record issued for an unknown job type is the
generic `ValueError` record, not a record of kind `NoHandler` with
`retryable = false` — it has neither field. -/
theorem no_handler_record_lacks_kind_and_retryable :
    (attemptTrace envNoHandler).any isHandlerStart = false ∧
    firstTerminalError (attemptTrace envNoHandler) =
      some (errorData ("No handler registered for job type: " ++ "send_email")
        "ValueError" "tb") ∧
    ¬ kindRetryableRecord "NoHandler" false
        (errorData ("No handler registered for job type: " ++ "send_email")
          "ValueError" "tb") := by
  refine ⟨by decide, rfl, ?_⟩
  intro h
  rcases h with ⟨hk, _⟩
  rw [errorData_lookup, if_neg (by decide), if_neg (by decide), if_neg (by decide)] at hk
  exact Option.noConfusion hk

/-! ## Claim C3 -/

/-- C3 (amended): a payload rejected by the registered validator raises
`ValueError("Payload validation failed")` in the RPC worker: the handler
is never invoked and the attempt issues one terminal
`complete_job(failed)` call with the generic `ValueError` record (no
`kind` or `retryable` field; the store decides requeue versus dead).
In the direct-Postgres worker a raised `JobValidationError`
(`retryable=False`) makes `mark_job_failed(retry=False)` set status
`'failed'` permanently with `completedAt` stamped, `retryCount`
untouched, and the job no longer claimable — one attempt, regardless of
how many attempts remain below the maximum. -/
theorem validation_failure_generic_record_and_permanent_failure (job : Job)
    (reg : HandlerRegistration H) (run : HandlerRun) (hbFates : List Bool)
    (fate : RpcFate) (tb : String) (now now2 : Int) (msg : String)
    (cid : Option String) (j : PJob)
    (hval : regValidates reg job.payload = false) :
    ((processJobTrace job (some reg) run hbFates fate tb).any isHandlerStart = false) ∧
    terminalCalls (processJobTrace job (some reg) run hbFates fate tb) =
      [Event.completeRpc job.id .failed none
        (some (errorData "Payload validation failed" "ValueError" tb))
        (!fate.failCallFails)] ∧
    (failedUpdate now msg false cid j).status = "failed" ∧
    (failedUpdate now msg false cid j).completedAt = some now ∧
    (failedUpdate now msg false cid j).retryCount = j.retryCount ∧
    claimEligible now2 (failedUpdate now msg false cid j) = false := by
  refine ⟨?_, ?_, ?_, ?_, ?_, ?_⟩
  · cases hbf : fate.failCallFails <;>
      simp [processJobTrace, hval, completeJobFailedEvents, hbf, isHandlerStart]
  · rw [terminalCalls_processJobTrace]
    cases hbf : fate.failCallFails <;>
      simp [attemptTerminalTail, hval, completeJobFailedEvents, hbf, terminalCalls, isTerminal]
  · simp [failedUpdate]
  · simp [failedUpdate]
  · simp [failedUpdate]
  · simp [claimEligible, failedUpdate,
      show (("failed" : String) == "pending") = false from by decide]

/-- Witness for C3 at a rejecting validator. -/
theorem validation_failure_generic_record_and_permanent_failure_witness :
    ((processJobTrace cJob (some cRegRejecting) cRunOk [] cFateOk "tb").any
        isHandlerStart = false) ∧
    terminalCalls (processJobTrace cJob (some cRegRejecting) cRunOk [] cFateOk "tb") =
      [Event.completeRpc cJob.id .failed none
        (some (errorData "Payload validation failed" "ValueError" "tb"))
        (!cFateOk.failCallFails)] ∧
    (failedUpdate 10 "m" false none pjobA).status = "failed" ∧
    (failedUpdate 10 "m" false none pjobA).completedAt = some 10 ∧
    (failedUpdate 10 "m" false none pjobA).retryCount = pjobA.retryCount ∧
    claimEligible 20 (failedUpdate 10 "m" false none pjobA) = false :=
  validation_failure_generic_record_and_permanent_failure cJob cRegRejecting cRunOk []
    cFateOk "tb" 10 20 "m" none pjobA rfl

/-- C3 counterexample: the record issued on validator failure is the
generic `ValueError` record, not a non-retryable `ValidationFailed`
record — it has neither a `kind` nor a `retryable` field. -/
theorem validation_record_lacks_kind_and_retryable :
    firstTerminalError (attemptTrace envRejected) =
      some (errorData "Payload validation failed" "ValueError" "tb") ∧
    ¬ kindRetryableRecord "ValidationFailed" false
        (errorData "Payload validation failed" "ValueError" "tb") := by
  refine ⟨rfl, ?_⟩
  intro h
  rcases h with ⟨hk, _⟩
  rw [errorData_lookup, if_neg (by decide), if_neg (by decide), if_neg (by decide)] at hk
  exact Option.noConfusion hk

/-! ## Claim C7 -/

/-- C7: the heartbeat loop issues one RPC attempt per tick irrespective
of earlier transport failures (a failure adds a warning log and the loop
keeps ticking: the attempt count equals the number of ticks and the
warning count equals the number of failed ticks), the loop stops only
through the executor's cancellation — observed at the sleep between
heartbeats, never inside one, with the cancellation event closing the
attempt trace — and no heartbeat RPC is attempted after the first
terminal complete call of the attempt. -/
theorem heartbeat_loop_resilience_and_cancellation (job : Job)
    (reg : HandlerRegistration H) (run : HandlerRun) (hbFates : List Bool)
    (fate : RpcFate) (tb : String)
    (hval : regValidates reg job.payload = true) :
    noHeartbeatAfterTerminal (processJobTrace job (some reg) run hbFates fate tb) = true ∧
    (processJobTrace job (some reg) run hbFates fate tb).getLast? =
      some (Event.cancelHeartbeat job.id) ∧
    ((processJobTrace job (some reg) run hbFates fate tb).filter isHeartbeatAttempt).length =
      hbFates.length ∧
    ((processJobTrace job (some reg) run hbFates fate tb).filter isHbWarn).length =
      (hbFates.filter (fun b => !b)).length := by
  have hpre : ∀ e ∈ attemptPrefix job (some reg) hbFates, isTerminal e = false :=
    fun e he => (mem_attemptPrefix he).2.1
  have htail_hb : (attemptTerminalTail job (some reg) run fate tb).filter
      isHeartbeatAttempt = [] := by
    rw [List.filter_eq_nil_iff]
    intro e he
    simp [(mem_attemptTerminalTail he).2.1]
  have htail_warn : (attemptTerminalTail job (some reg) run fate tb).filter isHbWarn = [] := by
    rw [List.filter_eq_nil_iff]
    intro e he
    simp [(mem_attemptTerminalTail he).2.2.1]
  refine ⟨?_, ?_, ?_, ?_⟩
  · rw [processJobTrace_decomp, noHeartbeatAfterTerminal_append _ _ hpre]
    exact noHeartbeatAfterTerminal_tail job (some reg) run fate tb
  · rw [processJobTrace_decomp, ← List.append_assoc, List.getLast?_concat]
  · rw [processJobTrace_decomp, List.filter_append, List.filter_append, htail_hb]
    simp [attemptPrefix, hval, isHeartbeatAttempt, heartbeatEvents_hb_count]
  · rw [processJobTrace_decomp, List.filter_append, List.filter_append, htail_warn]
    simp [attemptPrefix, hval, isHbWarn, heartbeatEvents_warn_count]

/-- Witness for C7 with a failing heartbeat between two healthy ones. -/
theorem heartbeat_loop_resilience_and_cancellation_witness :
    noHeartbeatAfterTerminal
      (processJobTrace cJob (some cRegPlain) cRunOk [true, false, true] cFateOk "tb") = true ∧
    (processJobTrace cJob (some cRegPlain) cRunOk [true, false, true] cFateOk "tb").getLast? =
      some (Event.cancelHeartbeat cJob.id) ∧
    ((processJobTrace cJob (some cRegPlain) cRunOk [true, false, true] cFateOk "tb").filter
        isHeartbeatAttempt).length = [true, false, true].length ∧
    ((processJobTrace cJob (some cRegPlain) cRunOk [true, false, true] cFateOk "tb").filter
        isHbWarn).length = ([true, false, true].filter (fun b => !b)).length :=
  heartbeat_loop_resilience_and_cancellation cJob cRegPlain cRunOk [true, false, true]
    cFateOk "tb" rfl

/-! ## Claim C8 -/

theorem alookup_append_none {β : Type} (k : String) (l1 l2 : List (String × β))
    (h : alookup k l1 = none) : alookup k (l1 ++ l2) = alookup k l2 := by
  induction l1 with
  | nil => rfl
  | cons p rest ih =>
    obtain ⟨k', v⟩ := p
    by_cases hk : k' = k
    · simp [alookup, hk] at h
    · simp only [alookup, hk, if_false] at h
      simp only [List.cons_append, alookup, hk, if_false]
      exact ih h

theorem registerHandlerAssign_lookup {β : Type} (hs : List (String × β)) (k : String)
    (h : β) : alookup k (registerHandlerAssign hs k h) = some h := by
  induction hs with
  | nil => simp [registerHandlerAssign, alookup]
  | cons p rest ih =>
    obtain ⟨k', v⟩ := p
    by_cases hk : k' = k
    · simp [registerHandlerAssign, hk, alookup]
    · simp only [registerHandlerAssign, hk, if_false]
      simp only [alookup, hk, if_false]
      exact ih

/-- C8 (amended): `HandlerRegistry.register` raises `ValueError` on a
duplicate `job_type` and leaves the existing registry unchanged;
registering a fresh type succeeds, and `HandlerRegistry.get` then
returns the full stored registration (handler, validator, timeout and
max attempts) — or nothing for an unregistered type.  By contrast, the
direct-Postgres worker's `register_handler` raises no error on a
duplicate: it silently overwrites the stored handler. -/
theorem registry_duplicate_error_and_lookup_vs_overwrite (r r2 : HandlerRegistry H)
    (job_type : String) (reg reg0 : HandlerRegistration H) (hs : List (String × H))
    (h : H) (hdup : r.get job_type = some reg0) (hfresh : r2.get job_type = none) :
    (r.register job_type reg).fst = r ∧
    (r.register job_type reg).snd =
      some ("Handler already registered for type: " ++ job_type) ∧
    (r2.register job_type reg).fst.get job_type = some reg ∧
    (r2.register job_type reg).snd = none ∧
    alookup job_type (registerHandlerAssign hs job_type h) = some h := by
  have hdup' : (alookup job_type r.handlers).isSome = true := by
    rw [HandlerRegistry.get] at hdup
    rw [hdup]
    rfl
  have hfresh' : (alookup job_type r2.handlers).isSome = false := by
    rw [HandlerRegistry.get] at hfresh
    rw [hfresh]
    rfl
  refine ⟨?_, ?_, ?_, ?_, registerHandlerAssign_lookup hs job_type h⟩
  · simp [HandlerRegistry.register, hdup']
  · simp [HandlerRegistry.register, hdup']
  · simp only [HandlerRegistry.register, hfresh', Bool.false_eq_true, if_false]
    rw [HandlerRegistry.get]
    rw [alookup_append_none _ _ _ (by rwa [HandlerRegistry.get] at hfresh)]
    simp [alookup]
  · simp [HandlerRegistry.register, hfresh']

/-- Witness for C8 on a one-entry registry and the empty registry. -/
theorem registry_duplicate_error_and_lookup_vs_overwrite_witness :
    ((⟨[("send_email", cRegPlain)]⟩ : HandlerRegistry String).register "send_email"
        cRegRejecting).fst = ⟨[("send_email", cRegPlain)]⟩ ∧
    ((⟨[("send_email", cRegPlain)]⟩ : HandlerRegistry String).register "send_email"
        cRegRejecting).snd =
      some ("Handler already registered for type: " ++ "send_email") ∧
    ((HandlerRegistry.empty : HandlerRegistry String).register "send_email"
        cRegRejecting).fst.get "send_email" = some cRegRejecting ∧
    ((HandlerRegistry.empty : HandlerRegistry String).register "send_email"
        cRegRejecting).snd = none ∧
    alookup "send_email" (registerHandlerAssign [("send_email", "h1")] "send_email" "h2") =
      some "h2" :=
  registry_duplicate_error_and_lookup_vs_overwrite ⟨[("send_email", cRegPlain)]⟩
    HandlerRegistry.empty "send_email" cRegRejecting cRegPlain [("send_email", "h1")]
    "h2" rfl rfl

/-- C8 counterexample: the direct-Postgres worker's `register_handler`
accepts a duplicate registration without error and replaces the stored
handler, so the existing registration does not survive. -/
theorem register_handler_silently_overwrites :
    registerHandlerAssign [("send_email", (1 : Nat))] "send_email" 2 = [("send_email", 2)] ∧
    ¬ (alookup "send_email" (registerHandlerAssign [("send_email", (1 : Nat))] "send_email" 2) =
        some 1) := by
  refine ⟨by decide, by decide⟩

/-! ## Claim C9 -/

/-- The correlation slot fields of `_execute_job` do not depend on the
dispatch outcome: the slot holds the chosen id during the attempt and is
cleared by `finally` on every path. -/
theorem executeJobP_slot (cfgTimeout elapsed : Nat) (handlers : List (String × H))
    (behavior : PHandlerBehavior) (fresh : String) (now : Int) (job : PJob)
    (store : List PJob) :
    (executeJobP cfgTimeout elapsed handlers behavior fresh now job store).slotDuring =
      some (chosenCorrelationId job fresh) ∧
    (executeJobP cfgTimeout elapsed handlers behavior fresh now job store).slotAfter =
      none := by
  unfold executeJobP
  cases alookup job.name handlers with
  | none => simp
  | some _ =>
    by_cases ht : cfgTimeout ≤ elapsed
    · simp [ht]
    · cases behavior <;> simp [ht]

/-- C9 (amended): `_execute_job` installs the chosen trace id in the
correlation slot on entry and the `finally` block clears it on every
exit path; the chosen id is the job-carried correlation id when that is
present and non-empty (Python `or` discards a falsy empty string) and a
freshly generated UUID otherwise. -/
theorem correlation_slot_install_and_clear (cfgTimeout elapsed : Nat)
    (handlers : List (String × H)) (behavior : PHandlerBehavior) (fresh : String)
    (now : Int) (job jobNoCid : PJob) (store : List PJob) (c : String)
    (hc : job.correlationId = some c) (hne : c ≠ "")
    (hnone : jobNoCid.correlationId = none) :
    (executeJobP cfgTimeout elapsed handlers behavior fresh now job store).slotDuring =
      some c ∧
    (executeJobP cfgTimeout elapsed handlers behavior fresh now job store).slotAfter =
      none ∧
    (executeJobP cfgTimeout elapsed handlers behavior fresh now jobNoCid store).slotDuring =
      some fresh ∧
    (executeJobP cfgTimeout elapsed handlers behavior fresh now jobNoCid store).slotAfter =
      none := by
  obtain ⟨h1, h2⟩ := executeJobP_slot cfgTimeout elapsed handlers behavior fresh now job store
  obtain ⟨h3, h4⟩ :=
    executeJobP_slot cfgTimeout elapsed handlers behavior fresh now jobNoCid store
  refine ⟨?_, h2, ?_, h4⟩
  · rw [h1]
    simp [chosenCorrelationId, hc, hne]
  · rw [h3]
    simp [chosenCorrelationId, hnone]

/-- Witness for C9 with a job carrying `correlationId = "corr-7"` and a
job carrying none. -/
theorem correlation_slot_install_and_clear_witness :
    (executeJobP 300 0 [("echo", "handler")] .returns "fresh-uuid" 10
        { pjobEmptyCid with correlationId := some "corr-7" } []).slotDuring =
      some "corr-7" ∧
    (executeJobP 300 0 [("echo", "handler")] .returns "fresh-uuid" 10
        { pjobEmptyCid with correlationId := some "corr-7" } []).slotAfter = none ∧
    (executeJobP 300 0 [("echo", "handler")] .returns "fresh-uuid" 10
        { pjobEmptyCid with correlationId := none } []).slotDuring = some "fresh-uuid" ∧
    (executeJobP 300 0 [("echo", "handler")] .returns "fresh-uuid" 10
        { pjobEmptyCid with correlationId := none } []).slotAfter = none :=
  correlation_slot_install_and_clear 300 0 [("echo", "handler")] .returns "fresh-uuid" 10
    { pjobEmptyCid with correlationId := some "corr-7" }
    { pjobEmptyCid with correlationId := none } [] "corr-7" rfl (by decide) rfl

/-- C9 counterexample: a job-carried correlation id that is present but
empty is not preferred — Python `or` treats it as falsy, so the slot
receives the freshly generated UUID instead of the carried value. -/
theorem empty_correlation_id_not_preferred :
    pjobEmptyCid.correlationId = some "" ∧
    (executeJobP 300 0 [("echo", "handler")] .returns "fresh-uuid" 10 pjobEmptyCid
        []).slotDuring = some "fresh-uuid" ∧
    ¬ ((executeJobP 300 0 [("echo", "handler")] .returns "fresh-uuid" 10 pjobEmptyCid
        []).slotDuring = some "") := by
  refine ⟨rfl, rfl, by decide⟩

/-! ## Claim C2 -/

theorem claimOrderLt_irrefl (j : PJob) : claimOrderLt j j = false := by
  simp [claimOrderLt, lexLt4]

theorem claimOrderLt_asymm {a b : PJob} (h : claimOrderLt a b = true) :
    claimOrderLt b a = false := by
  rw [Bool.eq_false_iff]
  intro hba
  simp only [claimOrderLt, lexLt4, Bool.or_eq_true, Bool.and_eq_true,
    decide_eq_true_eq] at h hba
  omega

theorem claimOrderLt_of_lt_of_not_lt {k a b : PJob} (h1 : claimOrderLt k a = true)
    (h2 : claimOrderLt b a = false) : claimOrderLt k b = true := by
  rw [Bool.eq_false_iff] at h2
  simp only [claimOrderLt, lexLt4, Bool.or_eq_true, Bool.and_eq_true,
    decide_eq_true_eq] at h1 ⊢
  simp only [ne_eq, claimOrderLt, lexLt4, Bool.or_eq_true, Bool.and_eq_true,
    decide_eq_true_eq, not_or, not_and_or, not_lt] at h2
  omega

theorem selectJob_none_all_ineligible (now : Int) :
    ∀ (store : List PJob), selectJob now store = none →
      ∀ j ∈ store, claimEligible now j = false := by
  intro store
  induction store with
  | nil =>
    intro _ j hj
    simp at hj
  | cons a rest ih =>
    intro h j hj
    rw [selectJob] at h
    split at h
    · rename_i hrest
      split at h
      · exact absurd h (by simp)
      · rename_i hne
        rcases List.mem_cons.mp hj with rfl | hj'
        · simpa using hne
        · exact ih hrest j hj'
    · split at h
      · split at h <;> exact absurd h (by simp)
      · exact absurd h (by simp)

theorem selectJob_mem_eligible (now : Int) :
    ∀ (store : List PJob) (j : PJob), selectJob now store = some j →
      j ∈ store ∧ claimEligible now j = true := by
  intro store
  induction store with
  | nil =>
    intro j h
    simp [selectJob] at h
  | cons a rest ih =>
    intro j h
    rw [selectJob] at h
    split at h
    · split at h
      · rename_i he
        cases h
        exact ⟨by simp, he⟩
      · exact absurd h (by simp)
    · rename_i b hrest
      split at h
      · rename_i he
        split at h
        · cases h
          obtain ⟨hmem, helig⟩ := ih j hrest
          exact ⟨List.mem_cons_of_mem _ hmem, helig⟩
        · cases h
          exact ⟨by simp, he⟩
      · cases h
        obtain ⟨hmem, helig⟩ := ih j hrest
        exact ⟨List.mem_cons_of_mem _ hmem, helig⟩

theorem selectJob_minimal (now : Int) :
    ∀ (store : List PJob) (j : PJob), selectJob now store = some j →
      ∀ k ∈ store, claimEligible now k = true → claimOrderLt k j = false := by
  intro store
  induction store with
  | nil =>
    intro j h
    simp [selectJob] at h
  | cons a rest ih =>
    intro j h k hk hke
    rw [selectJob] at h
    split at h
    · rename_i hrest
      split at h
      · cases h
        rcases List.mem_cons.mp hk with rfl | hk'
        · exact claimOrderLt_irrefl _
        · have := selectJob_none_all_ineligible now rest hrest k hk'
          rw [hke] at this
          exact Bool.noConfusion this
      · exact absurd h (by simp)
    · rename_i b hrest
      split at h
      · split at h
        · rename_i hba
          cases h
          rcases List.mem_cons.mp hk with rfl | hk'
          · exact claimOrderLt_asymm hba
          · exact ih j hrest k hk' hke
        · rename_i hba
          cases h
          rcases List.mem_cons.mp hk with rfl | hk'
          · exact claimOrderLt_irrefl _
          · rw [Bool.eq_false_iff]
            intro hkj
            have hkb := claimOrderLt_of_lt_of_not_lt hkj (Bool.eq_false_iff.mpr hba)
            have := ih b hrest k hk' hke
            rw [hkb] at this
            exact Bool.noConfusion this
      · rename_i he
        cases h
        rcases List.mem_cons.mp hk with rfl | hk'
        · rw [hke] at he
          exact absurd rfl he
        · exact ih j hrest k hk' hke

/-- C2 (amended): `claim_next_job` ignores its `worker_id` argument (no
claiming worker is recorded anywhere); when it returns a job, that job
came from the table satisfying the eligibility predicate (status
`'pending'`, `scheduledAt` absent or not after now, `retryCount` below
`maxRetries`) and is returned transitioned to `'running'` with
`startedAt = now` and `retryCount` unchanged (attempts are incremented
later, by `mark_job_failed`, not at claim time); the chosen job is
minimal among the eligible rows in the query's order
`priority DESC, scheduledAt ASC NULLS FIRST, createdAt ASC`; when it
returns nothing, the table is untouched and no row was eligible. -/
theorem claim_next_job_characterisation (now : Int) (w w2 : String)
    (store : List PJob) :
    claim_next_job now w store = claim_next_job now w2 store ∧
    ((claim_next_job now w store).fst = none →
      (claim_next_job now w store).snd = store ∧
        ∀ j ∈ store, claimEligible now j = false) ∧
    ∀ j', (claim_next_job now w store).fst = some j' →
      ∃ j ∈ store, claimEligible now j = true ∧ j' = runningUpdate now j ∧
        j'.status = "running" ∧ j'.startedAt = some now ∧
        j'.retryCount = j.retryCount ∧
        ∀ k ∈ store, claimEligible now k = true → claimOrderLt k j = false := by
  refine ⟨rfl, ?_, ?_⟩
  · intro h
    cases hsel : selectJob now store with
    | none =>
      have hsnd : (claim_next_job now w store).snd = store := by
        unfold claim_next_job
        rw [hsel]
      exact ⟨hsnd, selectJob_none_all_ineligible now store hsel⟩
    | some j =>
      have hfst : (claim_next_job now w store).fst = some (runningUpdate now j) := by
        unfold claim_next_job
        rw [hsel]
      rw [hfst] at h
      exact absurd h (by simp)
  · intro j' h
    cases hsel : selectJob now store with
    | none =>
      have hfst : (claim_next_job now w store).fst = none := by
        unfold claim_next_job
        rw [hsel]
      rw [hfst] at h
      exact absurd h (by simp)
    | some j =>
      have hfst : (claim_next_job now w store).fst = some (runningUpdate now j) := by
        unfold claim_next_job
        rw [hsel]
      rw [hfst] at h
      have hj' : j' = runningUpdate now j := (Option.some.inj h).symm
      obtain ⟨hmem, helig⟩ := selectJob_mem_eligible now store j hsel
      refine ⟨j, hmem, helig, hj', ?_, ?_, ?_, selectJob_minimal now store j hsel⟩
      · rw [hj']
        simp [runningUpdate]
      · rw [hj']
        simp [runningUpdate]
      · rw [hj']
        simp [runningUpdate]

/-- Witness for C2 on the two-job table. -/
theorem claim_next_job_characterisation_witness :
    claim_next_job 10 "w1" storeC2 = claim_next_job 10 "w2" storeC2 ∧
    ((claim_next_job 10 "w1" storeC2).fst = none →
      (claim_next_job 10 "w1" storeC2).snd = storeC2 ∧
        ∀ j ∈ storeC2, claimEligible 10 j = false) ∧
    ∀ j', (claim_next_job 10 "w1" storeC2).fst = some j' →
      ∃ j ∈ storeC2, claimEligible 10 j = true ∧ j' = runningUpdate 10 j ∧
        j'.status = "running" ∧ j'.startedAt = some 10 ∧
        j'.retryCount = j.retryCount ∧
        ∀ k ∈ storeC2, claimEligible 10 k = true → claimOrderLt k j = false :=
  claim_next_job_characterisation 10 "w1" "w2" storeC2

/-- C2 counterexample: on a table with job `a`
(`scheduledAt = 1`, `priority = 0`) and job `b` (`scheduledAt = 2`,
`priority = 5`), both claimable at `now = 10`, the code claims `b` —
priority outranks `run_at`, contradicting the claimed
run_at-first order — and returns it with `retryCount` still `0` rather
than incremented. -/
theorem claim_next_job_violates_spec_order_and_increment :
    ¬ claimSpecC2 10 "w1" storeC2 := by
  intro h
  have h2 : ∃ j ∈ storeC2, j.id = (runningUpdate 10 pjobB).id ∧
      claimEligible 10 j = true ∧ (runningUpdate 10 pjobB).status = "running" ∧
      (runningUpdate 10 pjobB).retryCount = j.retryCount + 1 ∧
      ∀ k ∈ storeC2, claimEligible 10 k = true → specOrderLt k j = false := h
  obtain ⟨j, hj, hid, -, -, hrc, -⟩ := h2
  simp only [storeC2, List.mem_cons, List.mem_singleton, List.not_mem_nil, or_false] at hj
  rcases hj with rfl | rfl
  · exact absurd hid (by decide)
  · exact absurd hrc (by decide)

/-! ## Claim C6 -/

theorem mem_processJobTrace {e : Event} {job : Job}
    {reg? : Option (HandlerRegistration H)} {run : HandlerRun} {hbFates : List Bool}
    {fate : RpcFate} {tb : String}
    (h : e ∈ processJobTrace job reg? run hbFates fate tb) :
    isClaimCall e = false ∧ ∀ jid, eventCompleteId e = some jid → jid = job.id := by
  rw [processJobTrace_decomp] at h
  rcases List.mem_append.mp h with h | h
  · have hp := mem_attemptPrefix h
    refine ⟨hp.1, fun jid hjid => ?_⟩
    rw [hp.2.2] at hjid
    exact Option.noConfusion hjid
  · rcases List.mem_append.mp h with h | h
    · have ht := mem_attemptTerminalTail h
      exact ⟨ht.1, ht.2.2.2⟩
    · simp only [List.mem_singleton] at h
      subst h
      exact ⟨rfl, fun jid hjid => Option.noConfusion hjid⟩

theorem mem_concatMap {f : α → List β} {b : β} :
    ∀ {xs : List α}, b ∈ concatMap f xs → ∃ x ∈ xs, b ∈ f x := by
  intro xs
  induction xs with
  | nil =>
    intro h
    simp [concatMap] at h
  | cons x rest ih =>
    intro h
    rcases List.mem_append.mp h with h | h
    · exact ⟨x, by simp, h⟩
    · obtain ⟨x', hx', hb⟩ := ih h
      exact ⟨x', by simp [hx'], hb⟩

theorem completesCoveredByLastClaim_append (l1 l2 : List Event) (cur : List String)
    (h : ∀ e ∈ l1, isClaimCall e = false ∧
      ∀ jid, eventCompleteId e = some jid → cur.any (fun x => x == jid) = true) :
    completesCoveredByLastClaim (l1 ++ l2) cur = completesCoveredByLastClaim l2 cur := by
  induction l1 with
  | nil => rfl
  | cons e rest ih =>
    have he := h e (by simp)
    have hrest : ∀ x ∈ rest, isClaimCall x = false ∧
        ∀ jid, eventCompleteId x = some jid → cur.any (fun y => y == jid) = true :=
      fun x hx => h x (by simp [hx])
    cases e with
    | claimRpc l ids ok => exact absurd he.1 (by simp [isClaimCall])
    | completeRpc jid st res err ok =>
      have hc := he.2 jid rfl
      show (cur.any (fun x => x == jid) &&
        completesCoveredByLastClaim (rest ++ l2) cur) = completesCoveredByLastClaim l2 cur
      rw [hc, Bool.true_and]
      exact ih hrest
    | heartbeatRpc a b => exact ih hrest
    | warnHeartbeatFailed a => exact ih hrest
    | handlerStart a => exact ih hrest
    | logError a => exact ih hrest
    | cancelHeartbeat a => exact ih hrest
    | sleepPoll => exact ih hrest

theorem completesCoveredByLastClaim_attempts (envs : List (AttemptEnv H))
    (l2 : List Event) (cur : List String)
    (hcur : ∀ env ∈ envs, cur.any (fun x => x == env.job.id) = true) :
    completesCoveredByLastClaim (concatMap attemptTrace envs ++ l2) cur =
      completesCoveredByLastClaim l2 cur := by
  induction envs with
  | nil => rfl
  | cons env rest ih =>
    show completesCoveredByLastClaim
      ((attemptTrace env ++ concatMap attemptTrace rest) ++ l2) cur =
        completesCoveredByLastClaim l2 cur
    rw [List.append_assoc, completesCoveredByLastClaim_append]
    · exact ih (fun e he => hcur e (by simp [he]))
    · intro e he
      have hm := mem_processJobTrace (by simpa [attemptTrace] using he)
      refine ⟨hm.1, fun jid hjid => ?_⟩
      rw [hm.2 jid hjid]
      exact hcur env (by simp)

theorem runTrace_covered (limit : Nat) (ticks : List (TickInput H)) :
    ∀ cur, completesCoveredByLastClaim (runTrace limit ticks) cur = true := by
  induction ticks with
  | nil => intro cur; rfl
  | cons t rest ih =>
    intro cur
    cases t with
    | claimFailed msg => exact ih []
    | claimed envs =>
      have h1 : runTrace limit (TickInput.claimed envs :: rest) =
          ((Event.claimRpc limit (envs.map (fun e => e.job.id)) true ::
            concatMap attemptTrace envs) ++ [Event.sleepPoll]) ++ runTrace limit rest := rfl
      rw [h1, List.cons_append, List.cons_append, List.append_assoc]
      show completesCoveredByLastClaim
        (concatMap attemptTrace envs ++ ([Event.sleepPoll] ++ runTrace limit rest))
        (envs.map (fun e => e.job.id)) = true
      rw [completesCoveredByLastClaim_attempts]
      · exact ih _
      · intro env henv
        rw [List.any_eq_true]
        exact ⟨env.job.id, List.mem_map.mpr ⟨env, henv, rfl⟩, by simp⟩

/-- C6 (amended): in loop mode every tick unconditionally issues one
claim with `limit = claim_limit` — there is no `max_concurrent` gate and
no active-jobs check — and `run_once` awaits all claimed jobs
(`asyncio.gather`) before the tick's `poll_interval` sleep: in the loop
trace, every terminal complete call belongs to the batch delivered by
the most recent claim, i.e. every attempt finishes before the next
tick's claim is issued. -/
theorem run_loop_claims_fixed_limit_and_awaits_each_tick (limit : Nat)
    (ticks : List (TickInput H)) :
    completesCoveredByLastClaim (runTrace limit ticks) [] = true ∧
    ∀ l ids ok, Event.claimRpc l ids ok ∈ runTrace limit ticks → l = limit := by
  refine ⟨runTrace_covered limit ticks [], ?_⟩
  induction ticks with
  | nil =>
    intro l ids ok h
    simp [runTrace, concatMap] at h
  | cons t rest ih =>
    intro l ids ok h
    have hsplit : runTrace limit (t :: rest) =
        (runOnceTrace limit t ++ [Event.sleepPoll]) ++ runTrace limit rest := rfl
    rw [hsplit] at h
    rcases List.mem_append.mp h with h | h
    · rcases List.mem_append.mp h with h | h
      · cases t with
        | claimFailed msg =>
          simp only [runOnceTrace, List.mem_cons, List.mem_singleton] at h
          rcases h with h | h | h
          · exact (Event.claimRpc.injEq _ _ _ _ _ _).mp h |>.1
          · exact Event.noConfusion h
          · simp at h
        | claimed envs =>
          simp only [runOnceTrace, List.mem_cons] at h
          rcases h with h | h
          · exact (Event.claimRpc.injEq _ _ _ _ _ _).mp h |>.1
          · exfalso
            obtain ⟨env, -, hin⟩ := mem_concatMap h
            have := (mem_processJobTrace (by simpa [attemptTrace] using hin)).1
            simp [isClaimCall] at this
      · simp at h
    · exact ih l ids ok h

/-- Witness for C6 on a two-tick run: one successful batch of one job,
then a failed claim. -/
theorem run_loop_claims_fixed_limit_and_awaits_each_tick_witness :
    completesCoveredByLastClaim
      (runTrace 10 [TickInput.claimed [envHappy], TickInput.claimFailed "boom"]) [] = true ∧
    ∀ l ids ok, Event.claimRpc l ids ok ∈
        runTrace 10 [TickInput.claimed [envHappy], TickInput.claimFailed "boom"] →
      l = 10 :=
  run_loop_claims_fixed_limit_and_awaits_each_tick 10
    [TickInput.claimed [envHappy], TickInput.claimFailed "boom"]

/-- C6 counterexample: `run_once` does await its executor tasks — the
tick containing one successfully claimed job already contains that job's
terminal complete call in its own trace, so jobs are not dispatched
without awaiting their completion before the next tick. -/
theorem run_once_awaits_terminal_completion :
    ¬ dispatchWithoutAwait 10 (TickInput.claimed [envHappy]) := by
  unfold dispatchWithoutAwait
  decide

end JobForge
